import Mathlib

/- A shallow embedding of the StoryBrush session controller
(src/vite.config.ts): the message log, the phase state machine of
handleUserSend, the session reset handleNewStory, and the client
wrappers sendMessageToWriter and generateIllustration.

External nondeterminism is passed in explicitly: the outcomes of the
two generation services, the strings produced by generateId (which is
Math.random based, so the embedding places no constraint on them), and
the values of Date.now, are supplied by a SubmitEnv.  A rejected
promise of an external call is an Except.error value, and the catch
blocks of the source are the error branches of the corresponding
matches; totality of handleUserSend reflects that no exception escapes
the handler.  The opaque Chat objects allocated by ai.chats.create are
modeled by an allocation counter nextHandle carried in the session
state, so that every startStorySession yields a handle distinct from
all earlier ones. -/

namespace StoryBrush

/-- Sender enum (source lines 24-27). -/
inductive Sender where
  | User
  | Assistant
  deriving DecidableEq

/-- MessageType enum (source lines 29-32). -/
inductive MessageType where
  | Text
  | Image
  deriving DecidableEq

/-- Message record (source lines 34-40): one Turn Record of the log. -/
structure Message where
  id : String
  sender : Sender
  type : MessageType
  content : String
  timestamp : Nat
  deriving DecidableEq

/-- AppState enum (source lines 42-47): the session phase. -/
inductive AppState where
  | Setup
  | Writing
  | WaitingForArt
  | Painting
  deriving DecidableEq

/-- The single error kind of the clients: a thrown Error carrying a message. -/
structure GenError where
  msg : String
  deriving DecidableEq

/-- One external generation call actually issued during a submit,
recording the exact prompt that was sent. -/
inductive ExtCall where
  | writerSend (prompt : String)
  | illustrate (prompt : String)
  deriving DecidableEq

/-- The canned fallback of sendMessageToWriter (source line 93),
returned when response.text is undefined or empty. -/
def fallbackText : String :=
  "I\x27m having trouble writing right now. Let\x27s try again."

/-- The JavaScript expression response.text || fallback (source line 93):
undefined and the empty string are both falsy. -/
def textOrFallback : Option String → String
  | none => fallbackText
  | some t => if t = "" then fallbackText else t

/-- sendMessageToWriter (source lines 89-98).  The provider call
chatSession.sendMessage is the oracle svc, returning response.text
(an Option, since the field may be undefined) or a rejection.  A null
chatSession throws before any external call is made; the second
component lists the external calls actually issued. -/
def sendMessageToWriter (session : Option Nat)
    (svc : String → Except GenError (Option String)) (message : String) :
    Except GenError String × List ExtCall :=
  match session with
  | none => (Except.error { msg := "Chat session not initialized." }, [])
  | some _ =>
    (match svc message with
     | Except.error e => Except.error e
     | Except.ok t => Except.ok (textOrFallback t),
     [ExtCall.writerSend message])

/-- part.inlineData (source lines 117-121). -/
structure InlineData where
  mimeType : String
  data : String
  deriving DecidableEq

/-- One element of response.candidates[0].content.parts. -/
structure Part where
  inlineData : Option InlineData
  deriving DecidableEq

/-- The illustration response: the optional chain
response.candidates?.[0]?.content?.parts || [] flattened to a list
(a missing level yields the empty list). -/
structure IllResponse where
  parts : List Part
  deriving DecidableEq

/-- The prompt template of generateIllustration (source lines 102-110). -/
def illPrompt (userDescription storyContext : String) : String :=
  "\n      Create a high-quality photorealistic image.\n      Scene Description: "
    ++ userDescription
    ++ "\n      Story Context: "
    ++ storyContext
    ++ "\n      Directives:\n      1. **Style**: Photorealistic, cinematic lighting, 8k resolution, highly detailed, photography style.\n      2. **Mood**: Adapt the lighting and atmosphere to the story\x27s genre, but maintain a realistic look.\n      3. **Character Consistency**: Ensure the main characters match previous descriptions in the context.\n    "

/-- The loop over parts (source lines 117-121): the first part with
inlineData, rendered as a data URI. -/
def firstImage : List Part → Option String
  | [] => none
  | p :: rest =>
    match p.inlineData with
    | some d => some ("data:" ++ d.mimeType ++ ";base64," ++ d.data)
    | none => firstImage rest

/-- generateIllustration (source lines 100-127): stateless call;
throws when the provider call rejects or when no part carries an
image payload. -/
def generateIllustration (svc : String → Except GenError IllResponse)
    (userDescription storyContext : String) :
    Except GenError String × List ExtCall :=
  let prompt := illPrompt userDescription storyContext
  match svc prompt with
  | Except.error e => (Except.error e, [ExtCall.illustrate prompt])
  | Except.ok response =>
    match firstImage response.parts with
    | some url => (Except.ok url, [ExtCall.illustrate prompt])
    | none => (Except.error { msg := "No image generated." }, [ExtCall.illustrate prompt])

/-- INITIAL_MESSAGE (source lines 259-265); its Date.now value is an
opaque load-time constant, fixed to 0 here. -/
def INITIAL_MESSAGE : Message :=
  { id := "init",
    sender := Sender.Assistant,
    type := MessageType.Text,
    content := "Hello! I am **StoryBrush**, your creative partner. \n\nI\x27m ready to write a new book with you. It can be any genre—Fantasy, Sci-Fi, Mystery, Romance, Horror, or anything you like! \n\nWhat should our story be about?",
    timestamp := 0 }

/-- The mutable state owned by the App component plus the module-level
chatSession; nextHandle is the allocation counter modelling the
identity of the Chat objects created by startStorySession. -/
structure SessionState where
  messages : List Message
  appState : AppState
  lastChapterText : String
  writerSession : Option Nat
  nextHandle : Nat
  deriving DecidableEq

/-- startStorySession (source lines 78-87): replaces chatSession with
a freshly created Chat; allocation modeled by the counter. -/
def startStorySession (s : SessionState) : SessionState :=
  { s with writerSession := some s.nextHandle, nextHandle := s.nextHandle + 1 }

/-- The mounted app: the useState initial values (source lines 268-270)
after the mount effect (source lines 280-282) has run startStorySession
on the initially null chatSession. -/
def initState : SessionState :=
  startStorySession
    { messages := [INITIAL_MESSAGE], appState := AppState.Setup,
      lastChapterText := "", writerSession := none, nextHandle := 0 }

/-- handleNewStory (source lines 294-299). -/
def handleNewStory (s : SessionState) : SessionState :=
  startStorySession
    { s with messages := [INITIAL_MESSAGE], appState := AppState.Setup,
             lastChapterText := "" }

/-- The environment of one submit: the provider call outcomes and the
results of generateId and Date.now, indexed by the order of the
addMessage calls within the submit. -/
structure SubmitEnv where
  writer : String → Except GenError (Option String)
  illustrator : String → Except GenError IllResponse
  ids : Nat → String
  times : Nat → Nat

/-- addMessage (source lines 284-292) at the k-th append of a submit:
the record gets the k-th generateId string and Date.now value. -/
def newMsg (env : SubmitEnv) (k : Nat) (sender : Sender) (ty : MessageType)
    (content : String) : Message :=
  { id := env.ids k, sender := sender, type := ty, content := content,
    timestamp := env.times k }

/-- The prompt built inline at source line 306. -/
def beginPrompt (text : String) : String :=
  "The story is about: " ++ text ++ ". Let\x27s begin!"

/-- The local nextChapterPrompt of source line 321. -/
def nextChapterPrompt (text : String) : String :=
  "The Art Director has provided the illustration for the previous chapter. It depicts: \"" ++ text ++ "\". Please write the next chapter now."

/-- The retry notice of the Setup catch block (source line 311). -/
def issueStartMsg : String :=
  "I encountered an issue starting the story. Please try again."

/-- The retry notice of the WaitingForArt catch block (source line 327). -/
def issueIllustrationMsg : String :=
  "I was unable to generate that illustration. Could you provide a different description?"

/-- handleUserSend (source lines 301-331).  The branches follow the
source: in Setup, append the user turn, call the writer, and append
either the chapter or the retry notice; in WaitingForArt, append the
user turn, call the illustrator and then (only on success) the writer
— a single catch covers both calls, appending issueIllustrationMsg and
restoring WaitingForArt; in the busy phases the handler does nothing.
The second component is the list of external calls issued. -/
def handleUserSend (env : SubmitEnv) (s : SessionState) (text : String) :
    SessionState × List ExtCall :=
  match s.appState with
  | AppState.Setup =>
    let s1 : SessionState :=
      { s with messages := s.messages ++ [newMsg env 0 Sender.User MessageType.Text text],
               appState := AppState.Writing }
    match sendMessageToWriter s.writerSession env.writer (beginPrompt text) with
    | (Except.ok response, calls) =>
      ({ s1 with messages := s1.messages ++ [newMsg env 1 Sender.Assistant MessageType.Text response],
                 lastChapterText := response,
                 appState := AppState.WaitingForArt }, calls)
    | (Except.error _, calls) =>
      ({ s1 with messages := s1.messages ++ [newMsg env 1 Sender.Assistant MessageType.Text issueStartMsg],
                 appState := AppState.Setup }, calls)
  | AppState.WaitingForArt =>
    let s1 : SessionState :=
      { s with messages := s.messages ++ [newMsg env 0 Sender.User MessageType.Text text],
               appState := AppState.Painting }
    match generateIllustration env.illustrator text s.lastChapterText with
    | (Except.ok imageUrl, calls1) =>
      let s2 : SessionState :=
        { s1 with messages := s1.messages ++ [newMsg env 1 Sender.Assistant MessageType.Image imageUrl],
                  appState := AppState.Writing }
      match sendMessageToWriter s.writerSession env.writer (nextChapterPrompt text) with
      | (Except.ok nextChapterResponse, calls2) =>
        ({ s2 with messages := s2.messages ++ [newMsg env 2 Sender.Assistant MessageType.Text nextChapterResponse],
                   lastChapterText := nextChapterResponse,
                   appState := AppState.WaitingForArt }, calls1 ++ calls2)
      | (Except.error _, calls2) =>
        ({ s2 with messages := s2.messages ++ [newMsg env 2 Sender.Assistant MessageType.Text issueIllustrationMsg],
                   appState := AppState.WaitingForArt }, calls1 ++ calls2)
    | (Except.error _, calls1) =>
      ({ s1 with messages := s1.messages ++ [newMsg env 1 Sender.Assistant MessageType.Text issueIllustrationMsg],
                 appState := AppState.WaitingForArt }, calls1)
  | AppState.Writing => (s, [])
  | AppState.Painting => (s, [])

/-- The states reachable from the mounted app by any sequence of
submits (under arbitrary environments) and resets. -/
inductive Reachable : SessionState → Prop
  | init : Reachable initState
  | submit (env : SubmitEnv) (text : String) {s : SessionState} :
      Reachable s → Reachable (handleUserSend env s text).1
  | reset {s : SessionState} : Reachable s → Reachable (handleNewStory s)

/-- Reachability restricted to runs in which every generateId result
of a submit differs from the other ids generated in that submit and
from every id already present in the log (a property Math.random does
not guarantee). -/
inductive ReachableFreshIds : SessionState → Prop
  | init : ReachableFreshIds initState
  | submit (env : SubmitEnv) (text : String) {s : SessionState} :
      ReachableFreshIds s →
      (∀ i < 3, ∀ j < 3, i ≠ j → env.ids i ≠ env.ids j) →
      (∀ i < 3, ∀ m ∈ s.messages, env.ids i ≠ m.id) →
      ReachableFreshIds (handleUserSend env s text).1
  | reset {s : SessionState} : ReachableFreshIds s → ReachableFreshIds (handleNewStory s)

/-- Fixture: an environment whose writer and illustrator both succeed. -/
def okEnv : SubmitEnv :=
  { writer := fun _ => Except.ok (some "Chapter One, in which we set sail."),
    illustrator := fun _ =>
      Except.ok { parts := [{ inlineData := some { mimeType := "image/png", data := "QUJD" } }] },
    ids := fun k => "id" ++ toString k,
    times := fun _ => 7 }

/-- Fixture: an environment whose writer and illustrator both reject. -/
def failEnv : SubmitEnv :=
  { writer := fun _ => Except.error { msg := "network down" },
    illustrator := fun _ => Except.error { msg := "network down" },
    ids := fun k => "id" ++ toString k,
    times := fun _ => 7 }

/-- Fixture: the illustrator succeeds but the writer rejects. -/
def mixedEnv : SubmitEnv :=
  { writer := fun _ => Except.error { msg := "network down" },
    illustrator := fun _ =>
      Except.ok { parts := [{ inlineData := some { mimeType := "image/png", data := "QUJD" } }] },
    ids := fun k => "id" ++ toString k,
    times := fun _ => 7 }

/-- Fixture: an environment in which every generateId draw happens to
collide with the id of the initial greeting. -/
def dupEnv : SubmitEnv :=
  { writer := fun _ => Except.error { msg := "network down" },
    illustrator := fun _ => Except.error { msg := "network down" },
    ids := fun _ => "init",
    times := fun _ => 7 }

/-- Fixture: a session awaiting an art description after one chapter. -/
def waitingState : SessionState :=
  { messages := [INITIAL_MESSAGE], appState := AppState.WaitingForArt,
    lastChapterText := "Chapter One, in which we set sail.",
    writerSession := some 0, nextHandle := 1 }

/-- Fixture: a session in the Writing busy phase. -/
def writingState : SessionState :=
  { waitingState with appState := AppState.Writing }

/-- Fixture: a session in the Painting busy phase. -/
def paintingState : SessionState :=
  { waitingState with appState := AppState.Painting }

/-- Fixture: the state reached from the mounted app by one submit under
dupEnv, whose generateId draws collide with the greeting id. -/
def dupState : SessionState :=
  (handleUserSend dupEnv initState "a pirate adventure").1

theorem sendMessageToWriter_calls_of_ok (session : Option Nat)
    (svc : String → Except GenError (Option String)) (message chap : String)
    (calls : List ExtCall)
    (h : sendMessageToWriter session svc message = (Except.ok chap, calls)) :
    calls = [ExtCall.writerSend message] := by
  cases session with
  | none => simp [sendMessageToWriter] at h
  | some k =>
    simp only [sendMessageToWriter, Prod.mk.injEq] at h
    exact h.2.symm

theorem generateIllustration_calls (svc : String → Except GenError IllResponse)
    (d c : String) :
    (generateIllustration svc d c).2 = [ExtCall.illustrate (illPrompt d c)] := by
  cases h : svc (illPrompt d c) with
  | error e => simp [generateIllustration, h]
  | ok r =>
    cases hf : firstImage r.parts <;> simp [generateIllustration, h, hf]

theorem handleUserSend_setup_ok (env : SubmitEnv) (s : SessionState)
    (text chap : String) (calls : List ExtCall)
    (hA : s.appState = AppState.Setup)
    (hW : sendMessageToWriter s.writerSession env.writer (beginPrompt text)
            = (Except.ok chap, calls)) :
    handleUserSend env s text =
      ({ s with
          messages := s.messages ++ [newMsg env 0 Sender.User MessageType.Text text,
                                     newMsg env 1 Sender.Assistant MessageType.Text chap],
          lastChapterText := chap,
          appState := AppState.WaitingForArt }, calls) := by
  simp [handleUserSend, hA, hW]

theorem handleUserSend_setup_err (env : SubmitEnv) (s : SessionState)
    (text : String) (e : GenError) (calls : List ExtCall)
    (hA : s.appState = AppState.Setup)
    (hW : sendMessageToWriter s.writerSession env.writer (beginPrompt text)
            = (Except.error e, calls)) :
    handleUserSend env s text =
      ({ s with
          messages := s.messages ++ [newMsg env 0 Sender.User MessageType.Text text,
                                     newMsg env 1 Sender.Assistant MessageType.Text issueStartMsg],
          appState := AppState.Setup }, calls) := by
  simp [handleUserSend, hA, hW]

theorem handleUserSend_waiting_illus_err (env : SubmitEnv) (s : SessionState)
    (text : String) (e : GenError) (calls : List ExtCall)
    (hA : s.appState = AppState.WaitingForArt)
    (hI : generateIllustration env.illustrator text s.lastChapterText
            = (Except.error e, calls)) :
    handleUserSend env s text =
      ({ s with
          messages := s.messages ++ [newMsg env 0 Sender.User MessageType.Text text,
                                     newMsg env 1 Sender.Assistant MessageType.Text issueIllustrationMsg],
          appState := AppState.WaitingForArt }, calls) := by
  simp [handleUserSend, hA, hI]

theorem handleUserSend_waiting_ok_ok (env : SubmitEnv) (s : SessionState)
    (text img chap : String) (calls1 calls2 : List ExtCall)
    (hA : s.appState = AppState.WaitingForArt)
    (hI : generateIllustration env.illustrator text s.lastChapterText
            = (Except.ok img, calls1))
    (hW : sendMessageToWriter s.writerSession env.writer (nextChapterPrompt text)
            = (Except.ok chap, calls2)) :
    handleUserSend env s text =
      ({ s with
          messages := s.messages ++ [newMsg env 0 Sender.User MessageType.Text text,
                                     newMsg env 1 Sender.Assistant MessageType.Image img,
                                     newMsg env 2 Sender.Assistant MessageType.Text chap],
          lastChapterText := chap,
          appState := AppState.WaitingForArt }, calls1 ++ calls2) := by
  simp [handleUserSend, hA, hI, hW]

theorem handleUserSend_waiting_ok_err (env : SubmitEnv) (s : SessionState)
    (text img : String) (e : GenError) (calls1 calls2 : List ExtCall)
    (hA : s.appState = AppState.WaitingForArt)
    (hI : generateIllustration env.illustrator text s.lastChapterText
            = (Except.ok img, calls1))
    (hW : sendMessageToWriter s.writerSession env.writer (nextChapterPrompt text)
            = (Except.error e, calls2)) :
    handleUserSend env s text =
      ({ s with
          messages := s.messages ++ [newMsg env 0 Sender.User MessageType.Text text,
                                     newMsg env 1 Sender.Assistant MessageType.Image img,
                                     newMsg env 2 Sender.Assistant MessageType.Text issueIllustrationMsg],
          appState := AppState.WaitingForArt }, calls1 ++ calls2) := by
  simp [handleUserSend, hA, hI, hW]

theorem handleUserSend_id_shape (env : SubmitEnv) (s : SessionState) (text : String) :
    (handleUserSend env s text).1.messages.map Message.id = s.messages.map Message.id
  ∨ (handleUserSend env s text).1.messages.map Message.id
      = s.messages.map Message.id ++ [env.ids 0, env.ids 1]
  ∨ (handleUserSend env s text).1.messages.map Message.id
      = s.messages.map Message.id ++ [env.ids 0, env.ids 1, env.ids 2] := by
  cases hA : s.appState with
  | Setup =>
    rcases hW : sendMessageToWriter s.writerSession env.writer (beginPrompt text)
      with ⟨res, calls⟩
    cases res <;> simp [handleUserSend, hA, hW, newMsg]
  | WaitingForArt =>
    rcases hI : generateIllustration env.illustrator text s.lastChapterText
      with ⟨res1, calls1⟩
    cases res1 with
    | error e => simp [handleUserSend, hA, hI, newMsg]
    | ok img =>
      rcases hW : sendMessageToWriter s.writerSession env.writer (nextChapterPrompt text)
        with ⟨res2, calls2⟩
      cases res2 <;> simp [handleUserSend, hA, hI, hW, newMsg]
  | Writing => simp [handleUserSend, hA]
  | Painting => simp [handleUserSend, hA]

theorem handleUserSend_session_eq (env : SubmitEnv) (s : SessionState) (text : String) :
    (handleUserSend env s text).1.writerSession = s.writerSession
  ∧ (handleUserSend env s text).1.nextHandle = s.nextHandle := by
  cases hA : s.appState with
  | Setup =>
    rcases hW : sendMessageToWriter s.writerSession env.writer (beginPrompt text)
      with ⟨res, calls⟩
    cases res <;> simp [handleUserSend, hA, hW]
  | WaitingForArt =>
    rcases hI : generateIllustration env.illustrator text s.lastChapterText
      with ⟨res1, calls1⟩
    cases res1 with
    | error e => simp [handleUserSend, hA, hI]
    | ok img =>
      rcases hW : sendMessageToWriter s.writerSession env.writer (nextChapterPrompt text)
        with ⟨res2, calls2⟩
      cases res2 <;> simp [handleUserSend, hA, hI, hW]
  | Writing => simp [handleUserSend, hA]
  | Painting => simp [handleUserSend, hA]

theorem reachable_session_lt (s : SessionState) (h : Reachable s) :
    ∀ k, s.writerSession = some k → k < s.nextHandle := by
  induction h with
  | init =>
    intro k hk
    simp only [initState, startStorySession, Option.some.injEq] at hk
    simp only [initState, startStorySession]
    omega
  | submit env text hr ih =>
    intro k hk
    rcases handleUserSend_session_eq env _ text with ⟨h1, h2⟩
    rw [h1] at hk
    rw [h2]
    exact ih k hk
  | reset hr ih =>
    intro k hk
    simp only [handleNewStory, startStorySession, Option.some.injEq] at hk
    simp only [handleNewStory, startStorySession]
    omega

/-- C1: for a submit in phase WaitingForArt (the spec's AwaitingArt) in
which the illustrator succeeds but the chained writer call fails, the
Assistant/Image turn is still appended right after the User/Text turn,
a failure-notice Assistant/Text turn follows it, and the final phase
is WaitingForArt, not Writing or Painting. -/
theorem submit_partial_failure (env : SubmitEnv) (s : SessionState) (text img : String)
    (e : GenError) (calls1 calls2 : List ExtCall)
    (hA : s.appState = AppState.WaitingForArt)
    (hI : generateIllustration env.illustrator text s.lastChapterText
            = (Except.ok img, calls1))
    (hW : sendMessageToWriter s.writerSession env.writer (nextChapterPrompt text)
            = (Except.error e, calls2)) :
    (handleUserSend env s text).1.messages
      = s.messages ++ [newMsg env 0 Sender.User MessageType.Text text,
                       newMsg env 1 Sender.Assistant MessageType.Image img,
                       newMsg env 2 Sender.Assistant MessageType.Text issueIllustrationMsg]
  ∧ newMsg env 1 Sender.Assistant MessageType.Image img
      ∈ (handleUserSend env s text).1.messages
  ∧ (handleUserSend env s text).1.appState = AppState.WaitingForArt := by
  rw [handleUserSend_waiting_ok_err env s text img e calls1 calls2 hA hI hW]
  refine ⟨rfl, ?_, rfl⟩
  simp

/-- Witness for C1: a concrete partially failing cycle. -/
theorem submit_partial_failure_witness :
    (handleUserSend mixedEnv waitingState "a ship at sunset").1.messages
      = waitingState.messages
          ++ [newMsg mixedEnv 0 Sender.User MessageType.Text "a ship at sunset",
              newMsg mixedEnv 1 Sender.Assistant MessageType.Image "data:image/png;base64,QUJD",
              newMsg mixedEnv 2 Sender.Assistant MessageType.Text issueIllustrationMsg]
  ∧ newMsg mixedEnv 1 Sender.Assistant MessageType.Image "data:image/png;base64,QUJD"
      ∈ (handleUserSend mixedEnv waitingState "a ship at sunset").1.messages
  ∧ (handleUserSend mixedEnv waitingState "a ship at sunset").1.appState
      = AppState.WaitingForArt :=
  submit_partial_failure mixedEnv waitingState "a ship at sunset"
    "data:image/png;base64,QUJD" { msg := "network down" }
    [ExtCall.illustrate (illPrompt "a ship at sunset" waitingState.lastChapterText)]
    [ExtCall.writerSend (nextChapterPrompt "a ship at sunset")]
    rfl rfl rfl

/-- C2: submitting while the phase is Writing or Painting leaves the
state (log, phase, everything else) unchanged and issues no external
call. -/
theorem submit_busy_noop (env : SubmitEnv) (s : SessionState) (text : String)
    (hA : s.appState = AppState.Writing ∨ s.appState = AppState.Painting) :
    handleUserSend env s text = (s, []) := by
  rcases hA with hA | hA <;> simp [handleUserSend, hA]

/-- Witness for C2: a concrete no-op submit in each busy phase. -/
theorem submit_busy_noop_witness :
    handleUserSend okEnv writingState "ignored" = (writingState, [])
  ∧ handleUserSend okEnv paintingState "ignored" = (paintingState, []) :=
  ⟨submit_busy_noop okEnv writingState "ignored" (Or.inl rfl),
   submit_busy_noop okEnv paintingState "ignored" (Or.inr rfl)⟩

/-- C3: for a submit in phase WaitingForArt in which both the
illustrator and the chained writer succeed, exactly three turns are
appended, in order User/Text, Assistant/Image, Assistant/Text, the
final phase is WaitingForArt, and lastChapterText equals the appended
Assistant/Text payload. -/
theorem submit_waitingForArt_success (env : SubmitEnv) (s : SessionState)
    (text img chap : String) (calls1 calls2 : List ExtCall)
    (hA : s.appState = AppState.WaitingForArt)
    (hI : generateIllustration env.illustrator text s.lastChapterText
            = (Except.ok img, calls1))
    (hW : sendMessageToWriter s.writerSession env.writer (nextChapterPrompt text)
            = (Except.ok chap, calls2)) :
    (handleUserSend env s text).1.messages
      = s.messages ++ [newMsg env 0 Sender.User MessageType.Text text,
                       newMsg env 1 Sender.Assistant MessageType.Image img,
                       newMsg env 2 Sender.Assistant MessageType.Text chap]
  ∧ (handleUserSend env s text).1.appState = AppState.WaitingForArt
  ∧ (handleUserSend env s text).1.lastChapterText = chap := by
  rw [handleUserSend_waiting_ok_ok env s text img chap calls1 calls2 hA hI hW]
  exact ⟨rfl, rfl, rfl⟩

/-- Witness for C3: a concrete fully successful art cycle. -/
theorem submit_waitingForArt_success_witness :
    (handleUserSend okEnv waitingState "a ship at sunset").1.messages
      = waitingState.messages
          ++ [newMsg okEnv 0 Sender.User MessageType.Text "a ship at sunset",
              newMsg okEnv 1 Sender.Assistant MessageType.Image "data:image/png;base64,QUJD",
              newMsg okEnv 2 Sender.Assistant MessageType.Text "Chapter One, in which we set sail."]
  ∧ (handleUserSend okEnv waitingState "a ship at sunset").1.appState
      = AppState.WaitingForArt
  ∧ (handleUserSend okEnv waitingState "a ship at sunset").1.lastChapterText
      = "Chapter One, in which we set sail." :=
  submit_waitingForArt_success okEnv waitingState "a ship at sunset"
    "data:image/png;base64,QUJD" "Chapter One, in which we set sail."
    [ExtCall.illustrate (illPrompt "a ship at sunset" waitingState.lastChapterText)]
    [ExtCall.writerSend (nextChapterPrompt "a ship at sunset")]
    rfl rfl rfl

/-- C4: for a submit in phase Setup with a succeeding writer, exactly
two turns are appended (User/Text, then Assistant/Text carrying the
writer result), lastChapterText equals that payload, the final phase
is WaitingForArt, and the one external call sent the exact prompt
"The story is about: {userText}. Let\x27s begin!". -/
theorem submit_setup_success (env : SubmitEnv) (s : SessionState)
    (text chap : String) (calls : List ExtCall)
    (hA : s.appState = AppState.Setup)
    (hW : sendMessageToWriter s.writerSession env.writer (beginPrompt text)
            = (Except.ok chap, calls)) :
    (handleUserSend env s text).1.messages
      = s.messages ++ [newMsg env 0 Sender.User MessageType.Text text,
                       newMsg env 1 Sender.Assistant MessageType.Text chap]
  ∧ (handleUserSend env s text).1.lastChapterText = chap
  ∧ (handleUserSend env s text).1.appState = AppState.WaitingForArt
  ∧ (handleUserSend env s text).2
      = [ExtCall.writerSend ("The story is about: " ++ text ++ ". Let\x27s begin!")] := by
  rw [handleUserSend_setup_ok env s text chap calls hA hW]
  refine ⟨rfl, rfl, rfl, ?_⟩
  have hc := sendMessageToWriter_calls_of_ok s.writerSession env.writer
    (beginPrompt text) chap calls hW
  simpa [beginPrompt] using hc

/-- Witness for C4: a concrete successful story start. -/
theorem submit_setup_success_witness :
    (handleUserSend okEnv initState "a pirate adventure").1.messages
      = initState.messages
          ++ [newMsg okEnv 0 Sender.User MessageType.Text "a pirate adventure",
              newMsg okEnv 1 Sender.Assistant MessageType.Text "Chapter One, in which we set sail."]
  ∧ (handleUserSend okEnv initState "a pirate adventure").1.lastChapterText
      = "Chapter One, in which we set sail."
  ∧ (handleUserSend okEnv initState "a pirate adventure").1.appState
      = AppState.WaitingForArt
  ∧ (handleUserSend okEnv initState "a pirate adventure").2
      = [ExtCall.writerSend ("The story is about: " ++ "a pirate adventure" ++ ". Let\x27s begin!")] :=
  submit_setup_success okEnv initState "a pirate adventure"
    "Chapter One, in which we set sail."
    [ExtCall.writerSend (beginPrompt "a pirate adventure")]
    rfl rfl

/-- C5: for a submit in phase WaitingForArt in which the illustrator
fails, exactly two turns are appended (User/Text, then the
Assistant/Text apology), the final phase is WaitingForArt, and the
writer is never invoked (the only external call is the illustration). -/
theorem submit_illustrator_failure (env : SubmitEnv) (s : SessionState)
    (text : String) (e : GenError) (calls : List ExtCall)
    (hA : s.appState = AppState.WaitingForArt)
    (hI : generateIllustration env.illustrator text s.lastChapterText
            = (Except.error e, calls)) :
    (handleUserSend env s text).1.messages
      = s.messages ++ [newMsg env 0 Sender.User MessageType.Text text,
                       newMsg env 1 Sender.Assistant MessageType.Text issueIllustrationMsg]
  ∧ (handleUserSend env s text).1.appState = AppState.WaitingForArt
  ∧ (handleUserSend env s text).2 = [ExtCall.illustrate (illPrompt text s.lastChapterText)]
  ∧ ∀ p, ExtCall.writerSend p ∉ (handleUserSend env s text).2 := by
  have hcalls : calls = [ExtCall.illustrate (illPrompt text s.lastChapterText)] := by
    have h2 := generateIllustration_calls env.illustrator text s.lastChapterText
    rw [hI] at h2
    exact h2
  rw [handleUserSend_waiting_illus_err env s text e calls hA hI, hcalls]
  refine ⟨rfl, rfl, rfl, ?_⟩
  intro p hp
  simp at hp

/-- Witness for C5: a concrete failing illustration request. -/
theorem submit_illustrator_failure_witness :
    (handleUserSend failEnv waitingState "a ship at sunset").1.messages
      = waitingState.messages
          ++ [newMsg failEnv 0 Sender.User MessageType.Text "a ship at sunset",
              newMsg failEnv 1 Sender.Assistant MessageType.Text issueIllustrationMsg]
  ∧ (handleUserSend failEnv waitingState "a ship at sunset").1.appState
      = AppState.WaitingForArt
  ∧ (handleUserSend failEnv waitingState "a ship at sunset").2
      = [ExtCall.illustrate (illPrompt "a ship at sunset" waitingState.lastChapterText)]
  ∧ ∀ p, ExtCall.writerSend p ∉ (handleUserSend failEnv waitingState "a ship at sunset").2 :=
  submit_illustrator_failure failEnv waitingState "a ship at sunset"
    { msg := "network down" }
    [ExtCall.illustrate (illPrompt "a ship at sunset" waitingState.lastChapterText)]
    rfl rfl

/-- C6: for a submit in phase Setup with a failing writer, the failure
is absorbed (handleUserSend is a total function: the catch turns the
rejection into a state), the retry-notice Assistant/Text turn follows
the User/Text turn, and the final phase is Setup. -/
theorem submit_setup_writer_failure (env : SubmitEnv) (s : SessionState)
    (text : String) (e : GenError) (calls : List ExtCall)
    (hA : s.appState = AppState.Setup)
    (hW : sendMessageToWriter s.writerSession env.writer (beginPrompt text)
            = (Except.error e, calls)) :
    (handleUserSend env s text).1.messages
      = s.messages ++ [newMsg env 0 Sender.User MessageType.Text text,
                       newMsg env 1 Sender.Assistant MessageType.Text issueStartMsg]
  ∧ (handleUserSend env s text).1.appState = AppState.Setup := by
  rw [handleUserSend_setup_err env s text e calls hA hW]
  exact ⟨rfl, rfl⟩

/-- Witness for C6: a concrete failing story start. -/
theorem submit_setup_writer_failure_witness :
    (handleUserSend failEnv initState "a pirate adventure").1.messages
      = initState.messages
          ++ [newMsg failEnv 0 Sender.User MessageType.Text "a pirate adventure",
              newMsg failEnv 1 Sender.Assistant MessageType.Text issueStartMsg]
  ∧ (handleUserSend failEnv initState "a pirate adventure").1.appState = AppState.Setup :=
  submit_setup_writer_failure failEnv initState "a pirate adventure"
    { msg := "network down" }
    [ExtCall.writerSend (beginPrompt "a pirate adventure")]
    rfl rfl

/-- C7: handleNewStory resets any reachable session to the single
greeting turn, phase Setup and empty lastChapterText, and installs a
writer session handle distinct from the previous one. -/
theorem newStory_resets (s : SessionState) (h : Reachable s) :
    (handleNewStory s).messages = [INITIAL_MESSAGE]
  ∧ (handleNewStory s).appState = AppState.Setup
  ∧ (handleNewStory s).lastChapterText = ""
  ∧ (handleNewStory s).writerSession = some s.nextHandle
  ∧ (handleNewStory s).writerSession ≠ s.writerSession := by
  refine ⟨rfl, rfl, rfl, rfl, ?_⟩
  intro hEq
  cases hs : s.writerSession with
  | none =>
    rw [hs] at hEq
    simp [handleNewStory, startStorySession] at hEq
  | some k =>
    have hk := reachable_session_lt s h k hs
    rw [hs] at hEq
    simp only [handleNewStory, startStorySession, Option.some.injEq] at hEq
    omega

/-- Witness for C7 at the mounted initial state. -/
theorem newStory_resets_witness :
    (handleNewStory initState).messages = [INITIAL_MESSAGE]
  ∧ (handleNewStory initState).appState = AppState.Setup
  ∧ (handleNewStory initState).lastChapterText = ""
  ∧ (handleNewStory initState).writerSession = some initState.nextHandle
  ∧ (handleNewStory initState).writerSession ≠ initState.writerSession :=
  newStory_resets initState Reachable.init

/-- C8: with an initialized session, sendMessageToWriter throws exactly
when the provider call rejects (and with the same error); when the
call succeeds but carries no usable text (undefined or empty), it
returns the canned fallback instead of failing. -/
theorem sendMessageToWriter_error_iff (k : Nat)
    (svc : String → Except GenError (Option String)) (message : String) :
    (∀ e, (sendMessageToWriter (some k) svc message).1 = Except.error e
        ↔ svc message = Except.error e)
  ∧ ((svc message = Except.ok none ∨ svc message = Except.ok (some "")) →
      (sendMessageToWriter (some k) svc message).1 = Except.ok fallbackText) := by
  constructor
  · intro e
    cases h : svc message with
    | error e2 => simp [sendMessageToWriter, h]
    | ok t => simp [sendMessageToWriter, h]
  · rintro (h | h) <;> simp [sendMessageToWriter, h, textOrFallback]

/-- Witness for C8: an empty-but-successful response yields the
fallback text rather than an error. -/
theorem sendMessageToWriter_error_iff_witness :
    (sendMessageToWriter (some 0) (fun _ => Except.ok (some "")) "hello").1
      = Except.ok fallbackText :=
  (sendMessageToWriter_error_iff 0 (fun _ => Except.ok (some "")) "hello").2 (Or.inr rfl)

/-- C9 as stated is false of the code: generateId draws from
Math.random with no uniqueness guarantee, so a run whose draws repeat
an existing id is possible; dupState is reachable in one submit and
its log carries the id "init" three times. -/
theorem log_ids_nodup_cex :
    Reachable dupState ∧ ¬ (dupState.messages.map Message.id).Nodup :=
  ⟨Reachable.submit dupEnv "a pirate adventure" Reachable.init, by decide⟩

/-- C9 (amended): provided every generateId draw of a submit differs
from the other draws of that submit and from every id already in the
log, every reachable log has pairwise-distinct ids. -/
theorem log_ids_nodup (s : SessionState) (h : ReachableFreshIds s) :
    (s.messages.map Message.id).Nodup := by
  induction h with
  | init => simp [initState, startStorySession, INITIAL_MESSAGE]
  | submit env text hr hinj hfresh ih =>
    rcases handleUserSend_id_shape env _ text with h1 | h1 | h1 <;> rw [h1]
    · exact ih
    · rw [List.nodup_append]
      refine ⟨ih, ?_, ?_⟩
      · have h01 := hinj 0 (by omega) 1 (by omega) (by omega)
        simp [h01]
      · intro a ha hb
        rw [List.mem_map] at ha
        obtain ⟨m, hm, rfl⟩ := ha
        simp only [List.mem_cons, List.not_mem_nil, or_false] at hb
        rcases hb with hb | hb
        · exact hfresh 0 (by omega) m hm hb.symm
        · exact hfresh 1 (by omega) m hm hb.symm
    · rw [List.nodup_append]
      refine ⟨ih, ?_, ?_⟩
      · have h01 := hinj 0 (by omega) 1 (by omega) (by omega)
        have h02 := hinj 0 (by omega) 2 (by omega) (by omega)
        have h12 := hinj 1 (by omega) 2 (by omega) (by omega)
        simp [h01, h02, h12]
      · intro a ha hb
        rw [List.mem_map] at ha
        obtain ⟨m, hm, rfl⟩ := ha
        simp only [List.mem_cons, List.not_mem_nil, or_false] at hb
        rcases hb with hb | hb | hb
        · exact hfresh 0 (by omega) m hm hb.symm
        · exact hfresh 1 (by omega) m hm hb.symm
        · exact hfresh 2 (by omega) m hm hb.symm
  | reset hr ih => simp [handleNewStory, startStorySession, INITIAL_MESSAGE]

/-- Witness for the amended C9: one submit under an environment whose
draws are fresh keeps the ids pairwise distinct. -/
theorem log_ids_nodup_witness :
    ((handleUserSend okEnv initState "a pirate adventure").1.messages.map Message.id).Nodup :=
  log_ids_nodup _
    (ReachableFreshIds.submit okEnv "a pirate adventure" ReachableFreshIds.init
      (by decide) (by decide))

/-- C10: on every failure path of a submit — writer failure from Setup,
illustrator failure from WaitingForArt, or chained writer failure after
a successful illustration — lastChapterText keeps its prior value. -/
theorem failure_preserves_lastChapterText (env : SubmitEnv) (s : SessionState)
    (text : String)
    (h : (s.appState = AppState.Setup ∧
            ∃ e calls, sendMessageToWriter s.writerSession env.writer (beginPrompt text)
              = (Except.error e, calls))
       ∨ (s.appState = AppState.WaitingForArt ∧
            ∃ e calls, generateIllustration env.illustrator text s.lastChapterText
              = (Except.error e, calls))
       ∨ (s.appState = AppState.WaitingForArt ∧
            (∃ img calls1, generateIllustration env.illustrator text s.lastChapterText
              = (Except.ok img, calls1)) ∧
            ∃ e calls2, sendMessageToWriter s.writerSession env.writer (nextChapterPrompt text)
              = (Except.error e, calls2))) :
    (handleUserSend env s text).1.lastChapterText = s.lastChapterText := by
  rcases h with ⟨hA, e, calls, hW⟩ | ⟨hA, e, calls, hI⟩ | ⟨hA, ⟨img, calls1, hI⟩, e, calls2, hW⟩
  · rw [handleUserSend_setup_err env s text e calls hA hW]
  · rw [handleUserSend_waiting_illus_err env s text e calls hA hI]
  · rw [handleUserSend_waiting_ok_err env s text img e calls1 calls2 hA hI hW]

/-- Witness for C10: a failing story start leaves lastChapterText empty. -/
theorem failure_preserves_lastChapterText_witness :
    (handleUserSend failEnv initState "a pirate adventure").1.lastChapterText
      = initState.lastChapterText :=
  failure_preserves_lastChapterText failEnv initState "a pirate adventure"
    (Or.inl ⟨rfl, ⟨{ msg := "network down" },
      [ExtCall.writerSend (beginPrompt "a pirate adventure")], rfl⟩⟩)

end StoryBrush
